import Mathlib

/-!
Shallow embedding of the `dji-telemetry` command-line interface
(`src/dji_telemetry/cli.py`) together with the parts of the telemetry
library that the CLI drives, and proofs of the specification claims
about it.

Numeric values computed by the Python code are modelled with exact
rational arithmetic (`Rat`).  `pathlib.Path` values are modelled by a
directory list plus the Python `stem` / `suffix` decomposition of the
final name component.  Fallible Python operations (dictionary
subscripts, `None` subscripts, division) are modelled with `Option`.
-/

namespace DjiTelemetry

/-- Model of a `pathlib.Path`: directory components plus the
`stem`/`suffix` split of the final name component.  In Python,
`suffix` is either empty or starts with a dot; that invariant is
carried as a hypothesis where a proof needs it. -/
structure PPath where
  dir : List String
  stem : String
  suffix : String
deriving DecidableEq, Repr

/-- The final name component, as Python's `Path.name`. -/
def PPath.name (p : PPath) : String := p.stem ++ p.suffix

/-- The full path string used to identify a file in the modelled
filesystem. -/
def PPath.fullName (p : PPath) : String :=
  String.intercalate ("/") p.dir ++ "/" ++ p.name

/-- Model of `Path.with_name`: replace the final name component, keeping the
directory.  The new name is re-split at its last dot, as `pathlib`
does. -/
def PPath.with_name (p : PPath) (newStem newSuffix : String) : PPath :=
  { dir := p.dir, stem := newStem, suffix := newSuffix }

/-- The seven `--no-X` boolean command-line flags shared by the
`overlay`, `overlay-only` and `frames` subcommands
(cli.py lines 259-265, 278-284, 298-304). -/
structure OverlayToggles where
  no_altitude : Bool
  no_speed : Bool
  no_vspeed : Bool
  no_coords : Bool
  no_camera : Bool
  no_timestamp : Bool
  no_gauge : Bool
deriving DecidableEq, Repr

/-- Library value `OverlayConfig`: the immutable option set the CLI
builds and hands to the pipeline.  Field names follow the keyword
arguments at cli.py lines 59-68. -/
structure OverlayConfig where
  show_altitude : Bool
  show_speed : Bool
  show_vertical_speed : Bool
  show_coordinates : Bool
  show_camera_settings : Bool
  show_timestamp : Bool
  show_speed_gauge : Bool
  gauge_max_speed_kmh : Rat
deriving DecidableEq, Repr

/-- The `OverlayConfig(...)` construction in `cmd_overlay`
(cli.py lines 59-68) and in `cmd_overlay_only` (lines 106-115):
every keyword argument is given explicitly, `gauge_max_speed_kmh`
from `args.gauge_max`. -/
def overlayCmdConfig (f : OverlayToggles) (gauge_max : Rat) : OverlayConfig :=
  { show_altitude := !f.no_altitude
    show_speed := !f.no_speed
    show_vertical_speed := !f.no_vspeed
    show_coordinates := !f.no_coords
    show_camera_settings := !f.no_camera
    show_timestamp := !f.no_timestamp
    show_speed_gauge := !f.no_gauge
    gauge_max_speed_kmh := gauge_max }

/-- Modelled from the spec: the constructor default of
`OverlayConfig.gauge_max_speed_kmh`.  The library module defining
`OverlayConfig` is not part of the CLI source, so the default is kept
abstract as the parameter `d` of `framesCmdConfig`; the spec only
states that `OverlayConfig` carries a numeric `gauge_max_speed_kmh`.

The `OverlayConfig(...)` construction in `cmd_frames`
(cli.py lines 145-153): the same seven toggles, with the
`gauge_max_speed_kmh` keyword omitted, so it takes the constructor
default `d`. -/
def framesCmdConfig (f : OverlayToggles) (d : Rat) : OverlayConfig :=
  { show_altitude := !f.no_altitude
    show_speed := !f.no_speed
    show_vertical_speed := !f.no_vspeed
    show_coordinates := !f.no_coords
    show_camera_settings := !f.no_camera
    show_timestamp := !f.no_timestamp
    show_speed_gauge := !f.no_gauge
    gauge_max_speed_kmh := d }

/-- The argparse default of `--gauge-max` on the `overlay` and
`overlay-only` subcommands (cli.py lines 266, 285): 50.0 km/h. -/
def gaugeMaxArgDefault : Rat := 50

/-- Argparse resolution of `--gauge-max` for `overlay` /
`overlay-only`: the given value, or the parser default 50.0 when the
option is absent.  The `frames` subparser defines no `--gauge-max`
option (cli.py lines 288-305). -/
def parseGaugeMax (given : Option Rat) : Rat :=
  given.getD gaugeMaxArgDefault

/-! ## Filesystem trace model for `cmd_overlay` (claim C1)

`cmd_overlay` (cli.py lines 70-84) writes the composite video to
`output_path.with_name(output_path.stem + '_temp.mp4')` and only moves
it to `output_path` once `process_video` has returned: by `rename`
without `--audio`, or by `add_audio` writing `output_path` followed by
`unlink` of the temp file with `--audio`.  A failure inside
`process_video` propagates as an exception, so the run ends right
after the partial write to the temp path. -/

/-- What a file on the modelled filesystem can hold. -/
inductive Artifact where
  /-- A truncated video left by a `process_video` failure mid-stream. -/
  | truncatedVideo
  /-- A completed composite video written by `process_video`. -/
  | overlayVideo
  /-- The completed video with the source audio muxed in. -/
  | muxedVideo
deriving DecidableEq, Repr

/-- Filesystem effects performed by `cmd_overlay`. -/
inductive FsEvent where
  /-- Event: `process_video` runs to completion, leaving a complete video. -/
  | writeComplete (p : PPath)
  /-- Event: `process_video` fails mid-stream, leaving a truncated video. -/
  | writeTruncated (p : PPath)
  /-- Event: `add_audio(temp, video, out)` writes the muxed video to `out`. -/
  | muxWrite (temp video out : PPath)
  /-- Event: `Path.unlink`. -/
  | unlink (p : PPath)
  /-- Event: `Path.rename`. -/
  | rename (src dst : PPath)
deriving DecidableEq, Repr

/-- Filesystem state: full path string to file content. -/
def Fs : Type := String → Option Artifact

/-- Point update of a filesystem state. -/
def Fs.update (fs : Fs) (k : String) (v : Option Artifact) : Fs :=
  fun k2 => if k2 = k then v else fs k2

/-- Effect of one event on the filesystem. -/
def stepFs (fs : Fs) : FsEvent → Fs
  | .writeComplete p => fs.update p.fullName (some .overlayVideo)
  | .writeTruncated p => fs.update p.fullName (some .truncatedVideo)
  | .muxWrite _ _ out => fs.update out.fullName (some .muxedVideo)
  | .unlink p => fs.update p.fullName none
  | .rename src dst =>
      (fs.update dst.fullName (fs src.fullName)).update src.fullName none

/-- Effect of a whole run. -/
def runFs (fs : Fs) (events : List FsEvent) : Fs :=
  events.foldl stepFs fs

/-- The temp path of cli.py line 71:
`output_path.with_name(output_path.stem + '_temp.mp4')`.  The new
name splits at its last dot into stem `stem ++ "_temp"` and suffix
`".mp4"`. -/
def overlayTempPath (out : PPath) : PPath :=
  out.with_name (out.stem ++ "_temp") ".mp4"

/-- The filesystem events of `cmd_overlay` after the config is built
(cli.py lines 70-84), as a function of the `--audio` flag and of
whether `process_video` completes (`procOk`).  On failure the
exception propagates and nothing after line 76 runs. -/
def cmd_overlay_events (video out : PPath) (useAudioTrack procOk : Bool) :
    List FsEvent :=
  let temp := overlayTempPath out
  if procOk then
    FsEvent.writeComplete temp ::
      (if useAudioTrack then
        [FsEvent.muxWrite temp video out, FsEvent.unlink temp]
      else
        [FsEvent.rename temp out])
  else
    [FsEvent.writeTruncated temp]

lemma string_append_cancel_left (a b c : String) (h : a ++ b = a ++ c) :
    b = c := by
  have hd : a.data ++ b.data = a.data ++ c.data := by
    have h2 := congrArg String.data h
    simpa [String.data_append] using h2
  exact String.ext (List.append_cancel_left hd)

lemma string_append_assoc (a b c : String) :
    (a ++ b) ++ c = a ++ (b ++ c) := by
  apply String.ext
  simp [String.data_append]

/-- The temp path never collides with the output path: their name
components differ, given the `pathlib` invariant that a suffix is
empty or starts with a dot (its first character is `'.'`). -/
lemma overlayTempPath_fullName_ne (out : PPath)
    (h : out.suffix = "" ∨ out.suffix.data.head? = some '.') :
    (overlayTempPath out).fullName ≠ out.fullName := by
  intro he
  have hn : (out.stem ++ "_temp") ++ ".mp4" = out.stem ++ out.suffix := by
    have := string_append_cancel_left
      (String.intercalate ("/") out.dir ++ "/") _ _ he
    simpa [overlayTempPath, PPath.with_name, PPath.name] using this
  have hs : "_temp" ++ ".mp4" = out.suffix := by
    apply string_append_cancel_left out.stem
    rw [← string_append_assoc, hn]
  rcases h with h0 | h0
  · rw [h0] at hs
    exact absurd hs (by decide)
  · rw [← hs] at h0
    exact absurd h0 (by decide)

/-! ## Parsed-track summary and pipeline call records -/

/-- The attributes of a parsed `TelemetryTrack` that the CLI reads
(frame count, duration, cached aggregates, first/last valid GPS fix).
`start_coordinates` / `end_coordinates` are `None` when the track has
no valid fix. -/
structure TrackSummary where
  framesCount : Nat
  duration_seconds : Rat
  total_distance : Rat
  max_altitude : Rat
  max_speed : Rat
  start_coordinates : Option (Rat × Rat)
  end_coordinates : Option (Rat × Rat)
deriving DecidableEq, Repr

/-- Image format choice of the `frames` subcommand
(cli.py line 295: choices `png` / `jpg`). -/
inductive ImgFormat where
  | png
  | jpg
deriving DecidableEq, Repr

/-- Parsed arguments of the `overlay` subcommand
(cli.py lines 252-267). -/
structure OverlayArgs where
  video : PPath
  srt : Option PPath
  output : Option PPath
  audioFlag : Bool
  quiet : Bool
  toggles : OverlayToggles
  gauge_max : Rat
deriving DecidableEq, Repr

/-- Parsed arguments of the `overlay-only` subcommand
(cli.py lines 270-286). -/
structure OverlayOnlyArgs where
  srt : PPath
  output : Option PPath
  width : Int
  height : Int
  fps : Rat
  quiet : Bool
  toggles : OverlayToggles
  gauge_max : Rat
deriving DecidableEq, Repr

/-- Parsed arguments of the `frames` subcommand (cli.py lines
289-305).  The `frames` subparser defines no `--gauge-max` option, so
there is no such field here. -/
structure FramesArgs where
  srt : PPath
  output : Option PPath
  width : Int
  height : Int
  fps : Rat
  format : ImgFormat
  quiet : Bool
  toggles : OverlayToggles
deriving DecidableEq, Repr

/-- Output path resolution of `cmd_overlay` (cli.py lines 47-49). -/
def overlayOutputPath (a : OverlayArgs) : PPath :=
  a.output.getD (a.video.with_name (a.video.stem ++ "_telemetry") ".mp4")

/-- Output path resolution of `cmd_overlay_only`
(cli.py lines 98-100). -/
def overlayOnlyOutputPath (b : OverlayOnlyArgs) : PPath :=
  b.output.getD (b.srt.with_name (b.srt.stem ++ "_overlay") ".mp4")

/-- Output directory resolution of `cmd_frames` (cli.py lines
137-139); the default name has no dot, hence an empty suffix. -/
def framesOutputDir (cf : FramesArgs) : PPath :=
  cf.output.getD (cf.srt.with_name (cf.srt.stem ++ "_frames") "")

/-- The argument tuple `cmd_overlay` passes to `process_video`
(cli.py lines 73-76).  The progress callback is modelled by
`Option Unit`: `some ()` is the `progress_bar` function, `none` is
Python `None`. -/
structure ProcessVideoCall where
  video : PPath
  telemetry : TrackSummary
  output : PPath
  config : OverlayConfig
  progress_callback : Option Unit
deriving DecidableEq, Repr

/-- The argument tuple `cmd_overlay_only` passes to
`generate_overlay_video` (cli.py lines 118-123). -/
structure GenOverlayVideoCall where
  telemetry : TrackSummary
  output : PPath
  width : Int
  height : Int
  fps : Rat
  config : OverlayConfig
  progress_callback : Option Unit
deriving DecidableEq, Repr

/-- The argument tuple `cmd_frames` passes to
`generate_overlay_frames` (cli.py lines 156-161). -/
structure GenFramesCall where
  telemetry : TrackSummary
  output_dir : PPath
  width : Int
  height : Int
  fps : Rat
  config : OverlayConfig
  format : ImgFormat
  progress_callback : Option Unit
deriving DecidableEq, Repr

/-- The `process_video` call made by `cmd_overlay` (cli.py lines
73-76), given the parsed track `t`. -/
def cmd_overlay_pv_call (a : OverlayArgs) (t : TrackSummary) :
    ProcessVideoCall :=
  { video := a.video
    telemetry := t
    output := overlayTempPath (overlayOutputPath a)
    config := overlayCmdConfig a.toggles a.gauge_max
    progress_callback := if a.quiet then none else some () }

/-- The `generate_overlay_video` call made by `cmd_overlay_only`
(cli.py lines 118-123). -/
def cmd_overlay_only_call (b : OverlayOnlyArgs) (t : TrackSummary) :
    GenOverlayVideoCall :=
  { telemetry := t
    output := overlayOnlyOutputPath b
    width := b.width
    height := b.height
    fps := b.fps
    config := overlayCmdConfig b.toggles b.gauge_max
    progress_callback := if b.quiet then none else some () }

/-- The `generate_overlay_frames` call made by `cmd_frames`
(cli.py lines 156-161); `d` is the abstract constructor default of
`OverlayConfig.gauge_max_speed_kmh` (see `framesCmdConfig`). -/
def cmd_frames_call (cf : FramesArgs) (t : TrackSummary) (d : Rat) :
    GenFramesCall :=
  { telemetry := t
    output_dir := framesOutputDir cf
    width := cf.width
    height := cf.height
    fps := cf.fps
    config := framesCmdConfig cf.toggles d
    format := cf.format
    progress_callback := if cf.quiet then none else some () }

/-! ## Export subcommand model (claim C2) -/

/-- Export format choices of the `--format` option
(cli.py line 311: choices `csv` / `json` / `gpx`). -/
inductive ExportFormat where
  | csv
  | json
  | gpx
deriving DecidableEq, Repr

/-- Parsed arguments of the `export` subcommand
(cli.py lines 308-312). -/
structure ExportArgs where
  srt : PPath
  output : PPath
  format : Option ExportFormat
deriving DecidableEq, Repr

/-- Argparse handling of `--format`: absent is allowed (no default),
a present value must be one of the three choices, anything else is
rejected before `cmd_export` runs (cli.py line 311). -/
def parseExportFormatArg : Option String → Except String (Option ExportFormat)
  | none => Except.ok none
  | some s =>
      if s = "csv" then Except.ok (some ExportFormat.csv)
      else if s = "json" then Except.ok (some ExportFormat.json)
      else if s = "gpx" then Except.ok (some ExportFormat.gpx)
      else Except.error s

/-- The argument tuple `cmd_export` passes to `export`
(cli.py line 184): `export(telemetry, output_path, format=args.format)`. -/
structure ExportCall where
  track : TrackSummary
  path : PPath
  format : Option ExportFormat
deriving DecidableEq, Repr

/-- The `export` call made by `cmd_export` (cli.py line 184). -/
def cmd_export_call (a : ExportArgs) (t : TrackSummary) : ExportCall :=
  { track := t, path := a.output, format := a.format }

/-- Modelled from the spec: the Exporter's file-extension inference
(the `export` function lives in the telemetry library, outside the
CLI source).  Spec 4.5: "Format resolved from an explicit argument,
falling back to file-extension inference". -/
def inferExportFormat (p : PPath) : Option ExportFormat :=
  if p.suffix = ".csv" then some ExportFormat.csv
  else if p.suffix = ".json" then some ExportFormat.json
  else if p.suffix = ".gpx" then some ExportFormat.gpx
  else none

/-- Modelled from the spec: format resolution inside `export`.
Spec 4.5: "an explicit argument always wins over inference". -/
def resolveExportFormat (explicitFmt : Option ExportFormat) (p : PPath) :
    Option ExportFormat :=
  match explicitFmt with
  | some f => some f
  | none => inferExportFormat p

/-- Modelled from the spec: `export(track, path, format)`.  Spec 4.5
and 7: "an unrecognized format (explicit or inferred) fails before
any output is written" (`ExportFormatError`); on success one record
per parsed frame is written.  The result pairs the resolved format
with the number of records written; the error branch writes
nothing. -/
def exportRun (c : ExportCall) : Except String (ExportFormat × Nat) :=
  match resolveExportFormat c.format c.path with
  | some f => Except.ok (f, c.track.framesCount)
  | none => Except.error ("ExportFormatError")

/-! ## Displayed speeds (claim C5) -/

/-- The summary block printed by `cmd_overlay` (cli.py lines 53-56):
frame count, duration, max altitude, and max speed converted to km/h
as `telemetry.max_speed * 3.6`. -/
structure OverlaySummaryShown where
  framesShown : Nat
  durationShown : Rat
  maxAltitudeShown : Rat
  maxSpeedShown : Rat
deriving DecidableEq, Repr

/-- The values printed by `cmd_overlay` lines 53-56. -/
def cmd_overlay_summary (t : TrackSummary) : OverlaySummaryShown :=
  { framesShown := t.framesCount
    durationShown := t.duration_seconds
    maxAltitudeShown := t.max_altitude
    maxSpeedShown := t.max_speed * 3.6 }

/-- The SRT summary block printed by `cmd_info` (cli.py lines
202-208): frame count, duration, distance, max altitude, max speed in
km/h as `telemetry.max_speed * 3.6`, and the start/end coordinates,
whose display is partial (`None` subscripting crashes). -/
structure InfoSrtShown where
  framesShown : Nat
  durationShown : Rat
  distanceShown : Rat
  maxAltitudeShown : Rat
  maxSpeedShown : Rat
  startShown : Rat × Rat
  endShown : Rat × Rat
deriving DecidableEq, Repr

/-- The values printed by the SRT branch of `cmd_info`, `none` when
the `telemetry.start_coordinates[0]`-style subscripts at lines
207-208 hit a `None`. -/
def cmd_info_srt_shown (t : TrackSummary) : Option InfoSrtShown :=
  match t.start_coordinates, t.end_coordinates with
  | some s, some e =>
      some { framesShown := t.framesCount
             durationShown := t.duration_seconds
             distanceShown := t.total_distance
             maxAltitudeShown := t.max_altitude
             maxSpeedShown := t.max_speed * 3.6
             startShown := s
             endShown := e }
  | _, _ => none

/-! ## `cmd_info` model (claims C7 and C10) -/

/-- Python `str.upper()` (ASCII): uppercase every character. -/
def strUpper (s : String) : String := String.mk (s.data.map Char.toUpper)

/-- The video suffixes accepted by `cmd_info` (cli.py line 210). -/
def videoSuffixes : List String := [".MP4", ".MOV", ".AVI", ".MKV"]

/-- Result of `get_video_info`: a string-keyed mapping, modelled as an
association list.  The collaborator contract (spec 6) promises keys
`width, height, fps, frame_count, duration_seconds`. -/
def VideoInfo : Type := List (String × Rat)

/-- Python dictionary subscript `info[k]`: `none` models a
`KeyError`. -/
def lookupKey (m : VideoInfo) (k : String) : Option Rat :=
  (m.find? (fun kv => kv.1 == k)).map Prod.snd

/-- Model of `cmd_info` (cli.py lines 190-223) for an existing path, given the
parsed track `t` (used by the `.SRT` branch) and the probe result
`info` (used by the video branch).  `some code` is a normal return,
`none` an uncaught exception: a `None` subscript at lines 207-208 or
a missing key at lines 214-217. -/
def cmd_info_run (p : PPath) (t : TrackSummary) (info : VideoInfo) :
    Option Int :=
  if strUpper p.suffix = ".SRT" then
    match cmd_info_srt_shown t with
    | some _ => some 0
    | none => none
  else if strUpper p.suffix ∈ videoSuffixes then
    match lookupKey info ("width"), lookupKey info ("height"),
        lookupKey info ("fps"), lookupKey info ("frame_count"),
        lookupKey info ("duration_seconds") with
    | some _, some _, some _, some _, some _ => some 0
    | _, _, _, _, _ => none
  else
    some 1

/-! ## `progress_bar` model (claim C9) -/

/-- The line printed by `progress_bar` (cli.py lines 23-31): the bar
characters between the brackets, the percentage, the counters, and
whether the terminating newline is printed. -/
structure ProgressLine where
  bar : List Char
  percentShown : Rat
  currentShown : Nat
  totalShown : Nat
  newline : Bool
deriving DecidableEq, Repr

/-- Model of `progress_bar(current, total, width)` (cli.py lines 23-31).
`percent = current / total` has no guard, so `total = 0` raises
`ZeroDivisionError`, modelled as `none`.  `filled = int(width *
percent)` truncates toward zero, which for the non-negative values
here is the floor. -/
def progress_bar_run (current total width : Nat) : Option ProgressLine :=
  if total = 0 then none
  else
    let percent : Rat := (current : Rat) / (total : Rat)
    let filled : Nat := ((width : Rat) * percent).floor.toNat
    some { bar := List.replicate filled '=' ++ List.replicate (width - filled) '-'
           percentShown := percent * 100
           currentShown := current
           totalShown := total
           newline := current == total }

/-! ## Telemetry track sampling (claim C6)

The `TelemetryTrack.sample` implementation lives in the telemetry
library, outside the CLI source, so it is modelled from the spec
(sections 3, 4.2). -/

/-- Modelled from the spec: the continuous numeric fields of a
`TelemetryFrame` that `sample` interpolates (spec 3, 4.2); optional
because each may be absent from a parsed frame. -/
structure TelemetryFrame where
  start_time_s : Rat
  end_time_s : Rat
  altitude_m : Option Rat
  horizontal_speed_mps : Option Rat
  vertical_speed_mps : Option Rat
  latitude : Option Rat
  longitude : Option Rat
deriving DecidableEq, Repr

/-- Linear interpolation of an optional field at fractional position
`frac`; when either endpoint is absent the earlier frame's value is
held. -/
def lerpOpt (a b : Option Rat) (frac : Rat) : Option Rat :=
  match a, b with
  | some x, some y => some (x + (y - x) * frac)
  | _, _ => a

/-- Modelled from the spec (4.2): the interpolated reading between
the bracketing frames `f` and `g`, at fractional position
`(t - f.start) / (g.start - f.start)`. -/
def sampleBetween (f g : TelemetryFrame) (t : Rat) : TelemetryFrame :=
  let frac : Rat := (t - f.start_time_s) / (g.start_time_s - f.start_time_s)
  { start_time_s := t
    end_time_s := t
    altitude_m := lerpOpt f.altitude_m g.altitude_m frac
    horizontal_speed_mps := lerpOpt f.horizontal_speed_mps g.horizontal_speed_mps frac
    vertical_speed_mps := lerpOpt f.vertical_speed_mps g.vertical_speed_mps frac
    latitude := lerpOpt f.latitude g.latitude frac
    longitude := lerpOpt f.longitude g.longitude frac }

/-- Modelled from the spec (4.2): `TelemetryTrack.sample` by monotonic
scan over the frames.  `t` at or before the first start time clamps
to the first frame, `t` at or past the last start time clamps to the
last frame, otherwise the bracketing pair is located and
interpolated.  An empty track has nothing to sample (`none`). -/
def sample : List TelemetryFrame → Rat → Option TelemetryFrame
  | [], _ => none
  | [f], _ => some f
  | f :: g :: rest, t =>
      if t ≤ f.start_time_s then some f
      else if t < g.start_time_s then some (sampleBetween f g t)
      else sample (g :: rest) t

/-- The altitude of the sampled reading. -/
def sampleAltitude (frames : List TelemetryFrame) (t : Rat) : Option Rat :=
  (sample frames t).bind TelemetryFrame.altitude_m

/-- A frame with only times and an altitude, as in the spec's 3-cue
example (spec 8). -/
def altFrame (s e a : Rat) : TelemetryFrame :=
  { start_time_s := s
    end_time_s := e
    altitude_m := some a
    horizontal_speed_mps := none
    vertical_speed_mps := none
    latitude := none
    longitude := none }

/-- The spec's example track: altitudes [10, 20, 30] m at start times
[0s, 1s, 2s], final end time 3s. -/
def exampleTrack : List TelemetryFrame :=
  [altFrame 0 1 10, altFrame 1 2 20, altFrame 2 3 30]

/-! ## Theorems for the claims -/

lemma rat_floor_eq_int_floor (q : Rat) : q.floor = ⌊q⌋ := rfl

/-- Claim C3: for each of the overlay, overlay-only, and frames subcommands,
the presence or absence of `--quiet` changes only the
`progress_callback` argument passed to the pipeline entry point
(`progress_bar`, i.e. `some ()`, when absent; `None` when present)
and no other argument. -/
theorem quiet_changes_only_progress_callback
    (a : OverlayArgs) (b : OverlayOnlyArgs) (cf : FramesArgs)
    (t : TrackSummary) (d : Rat) :
    cmd_overlay_pv_call a t
        = { cmd_overlay_pv_call { a with quiet := false } t with
            progress_callback := if a.quiet then none else some () }
      ∧ cmd_overlay_only_call b t
        = { cmd_overlay_only_call { b with quiet := false } t with
            progress_callback := if b.quiet then none else some () }
      ∧ cmd_frames_call cf t d
        = { cmd_frames_call { cf with quiet := false } t d with
            progress_callback := if cf.quiet then none else some () } :=
  ⟨rfl, rfl, rfl⟩

/-- Claim C4: the `OverlayConfig` built by `cmd_overlay` and `cmd_frames`
sets each boolean toggle `show_X` to the negation of its `--no-X`
flag, each flag affects exactly its own toggle (each toggle depends
only on its own flag), and the single config built before processing
is the one passed to the pipeline call. -/
theorem config_toggles_negate_flags
    (f f2 : OverlayToggles) (g g2 d : Rat) (a : OverlayArgs)
    (cf : FramesArgs) (t : TrackSummary) :
    (overlayCmdConfig f g
        = ⟨!f.no_altitude, !f.no_speed, !f.no_vspeed, !f.no_coords,
           !f.no_camera, !f.no_timestamp, !f.no_gauge, g⟩
      ∧ framesCmdConfig f d
        = ⟨!f.no_altitude, !f.no_speed, !f.no_vspeed, !f.no_coords,
           !f.no_camera, !f.no_timestamp, !f.no_gauge, d⟩
      ∧ (cmd_overlay_pv_call a t).config = overlayCmdConfig a.toggles a.gauge_max
      ∧ (cmd_frames_call cf t d).config = framesCmdConfig cf.toggles d)
    ∧ ((f.no_altitude = f2.no_altitude →
          (overlayCmdConfig f g).show_altitude = (overlayCmdConfig f2 g2).show_altitude)
      ∧ (f.no_speed = f2.no_speed →
          (overlayCmdConfig f g).show_speed = (overlayCmdConfig f2 g2).show_speed)
      ∧ (f.no_vspeed = f2.no_vspeed →
          (overlayCmdConfig f g).show_vertical_speed
            = (overlayCmdConfig f2 g2).show_vertical_speed)
      ∧ (f.no_coords = f2.no_coords →
          (overlayCmdConfig f g).show_coordinates
            = (overlayCmdConfig f2 g2).show_coordinates)
      ∧ (f.no_camera = f2.no_camera →
          (overlayCmdConfig f g).show_camera_settings
            = (overlayCmdConfig f2 g2).show_camera_settings)
      ∧ (f.no_timestamp = f2.no_timestamp →
          (overlayCmdConfig f g).show_timestamp
            = (overlayCmdConfig f2 g2).show_timestamp)
      ∧ (f.no_gauge = f2.no_gauge →
          (overlayCmdConfig f g).show_speed_gauge
            = (overlayCmdConfig f2 g2).show_speed_gauge)) := by
  refine ⟨⟨rfl, rfl, rfl, rfl⟩, ?_, ?_, ?_, ?_, ?_, ?_, ?_⟩ <;>
    · intro h
      simp [overlayCmdConfig, h]

/-- Witness for claim C4: two flag records that agree only on `no_altitude`
still produce the same `show_altitude`. -/
theorem config_toggles_negate_flags_witness :
    (overlayCmdConfig ⟨true, false, false, false, false, false, false⟩ 50).show_altitude
      = (overlayCmdConfig ⟨true, true, true, true, true, true, true⟩ 60).show_altitude :=
  (config_toggles_negate_flags
    ⟨true, false, false, false, false, false, false⟩
    ⟨true, true, true, true, true, true, true⟩ 50 60 0
    ⟨⟨[], "v", ".MP4"⟩, none, none, false, false,
      ⟨false, false, false, false, false, false, false⟩, 50⟩
    ⟨⟨[], "s", ".SRT"⟩, none, 1920, 1080, 30,
      ImgFormat.png, false, ⟨false, false, false, false, false, false, false⟩⟩
    ⟨0, 0, 0, 0, 0, none, none⟩).2.1 rfl

/-- Claim C8: for every `frames` invocation the config passed to
`generate_overlay_frames` has `gauge_max_speed_kmh` equal to the
`OverlayConfig` constructor default `d`, since the `frames` argument
record has no `--gauge-max` field and `cmd_frames` omits the keyword;
`overlay` and `overlay-only` instead expose `--gauge-max` with
argparse default 50.0 km/h and pass it through. -/
theorem frames_gauge_max_is_ctor_default
    (cf : FramesArgs) (a : OverlayArgs) (b : OverlayOnlyArgs)
    (t : TrackSummary) (d g : Rat) :
    (cmd_frames_call cf t d).config.gauge_max_speed_kmh = d
      ∧ parseGaugeMax none = gaugeMaxArgDefault
      ∧ gaugeMaxArgDefault = 50
      ∧ parseGaugeMax (some g) = g
      ∧ (cmd_overlay_pv_call a t).config.gauge_max_speed_kmh = a.gauge_max
      ∧ (cmd_overlay_only_call b t).config.gauge_max_speed_kmh = b.gauge_max :=
  ⟨rfl, rfl, rfl, rfl, rfl, rfl⟩

/-- Claim C5: wherever the CLI displays a speed — the `Max speed`
line of `cmd_overlay` (cli.py line 56) and the `Max speed` line of
`cmd_info` (line 206) — the stored meters-per-second value is
converted to km/h by multiplying by exactly 3.6 (= 18/5, an exact
rational, not an approximation). -/
theorem speed_displayed_times_3_6 (t : TrackSummary) :
    (cmd_overlay_summary t).maxSpeedShown = t.max_speed * 3.6
      ∧ (t.start_coordinates.isSome = true → t.end_coordinates.isSome = true →
          (cmd_info_srt_shown t).map InfoSrtShown.maxSpeedShown
            = some (t.max_speed * 3.6))
      ∧ (3.6 : Rat) = 18 / 5 := by
  refine ⟨rfl, ?_, by norm_num⟩
  intro h1 h2
  rcases hs : t.start_coordinates with _ | s
  · rw [hs] at h1; cases h1
  rcases he : t.end_coordinates with _ | e
  · rw [he] at h2; cases h2
  simp [cmd_info_srt_shown, hs, he]

/-- Witness for claim C5: a track with a fix and max speed 10 m/s
shows 10 * 3.6 km/h in the `cmd_info` SRT summary. -/
theorem speed_displayed_times_3_6_witness :
    (cmd_info_srt_shown ⟨5, 0, 0, 0, 10, some (1, 2), some (3, 4)⟩).map
        InfoSrtShown.maxSpeedShown
      = some ((10 : Rat) * 3.6) :=
  (speed_displayed_times_3_6 ⟨5, 0, 0, 0, 10, some (1, 2), some (3, 4)⟩).2.1
    rfl rfl

/-- Claim C2: `cmd_export` passes the user-supplied `--format` value
(one of csv, json, gpx, or absent — argparse rejects anything else)
unchanged to `export(track, path, format)`; an explicit format always
wins over file-extension inference, and an unrecognized format
(explicit rejected by argparse, inferred absent in `export`) fails
before any output is written. -/
theorem export_format_passthrough
    (a : ExportArgs) (t : TrackSummary) (f : ExportFormat)
    (p : PPath) (s : String) :
    (cmd_export_call a t).format = a.format
      ∧ resolveExportFormat (some f) p = some f
      ∧ (a.format = some f →
          exportRun (cmd_export_call a t) = Except.ok (f, t.framesCount))
      ∧ (s ≠ "csv" → s ≠ "json" → s ≠ "gpx" →
          parseExportFormatArg (some s) = Except.error s)
      ∧ (a.format = none → inferExportFormat a.output = none →
          exportRun (cmd_export_call a t) = Except.error ("ExportFormatError")) := by
  refine ⟨rfl, rfl, ?_, ?_, ?_⟩
  · intro h
    simp [exportRun, cmd_export_call, resolveExportFormat, h]
  · intro h1 h2 h3
    simp [parseExportFormatArg, h1, h2, h3]
  · intro h1 h2
    simp [exportRun, cmd_export_call, resolveExportFormat, h1, h2]

/-- Witness for claim C2: an explicit csv format on a `.gpx`-named
output exports csv; the unrecognized string `yaml` is rejected by the
parser; no explicit format and an unrecognized extension error before
any record is written. -/
theorem export_format_passthrough_witness :
    exportRun (cmd_export_call
        ⟨⟨[], "a", ".SRT"⟩, ⟨[], "o", ".gpx"⟩, some ExportFormat.csv⟩
        ⟨3, 0, 0, 0, 0, none, none⟩)
      = Except.ok (ExportFormat.csv, 3)
    ∧ parseExportFormatArg (some ("yaml")) = Except.error ("yaml")
    ∧ exportRun (cmd_export_call
        ⟨⟨[], "a", ".SRT"⟩, ⟨[], "o", ".xyz"⟩, none⟩
        ⟨3, 0, 0, 0, 0, none, none⟩)
      = Except.error ("ExportFormatError") :=
  ⟨(export_format_passthrough
      ⟨⟨[], "a", ".SRT"⟩, ⟨[], "o", ".gpx"⟩, some ExportFormat.csv⟩
      ⟨3, 0, 0, 0, 0, none, none⟩ ExportFormat.csv
      ⟨[], "x", ""⟩ "yaml").2.2.1 rfl,
   (export_format_passthrough
      ⟨⟨[], "a", ".SRT"⟩, ⟨[], "o", ".gpx"⟩, some ExportFormat.csv⟩
      ⟨3, 0, 0, 0, 0, none, none⟩ ExportFormat.csv
      ⟨[], "x", ""⟩ "yaml").2.2.2.1 (by decide) (by decide) (by decide),
   (export_format_passthrough
      ⟨⟨[], "a", ".SRT"⟩, ⟨[], "o", ".xyz"⟩, none⟩
      ⟨3, 0, 0, 0, 0, none, none⟩ ExportFormat.csv
      ⟨[], "x", ""⟩ "yaml").2.2.2.2 rfl (by decide)⟩

lemma video_suffix_ne_srt (s : String) (hv : s ∈ videoSuffixes) :
    s ≠ ".SRT" := by
  have h4 : s = ".MP4" ∨ s = ".MOV" ∨ s = ".AVI" ∨ s = ".MKV" := by
    simpa [videoSuffixes] using hv
  rcases h4 with h | h | h | h <;> · rw [h]; decide

/-- Claim C7: for every path whose suffix (uppercased) is one of
`.MP4`, `.MOV`, `.AVI`, `.MKV`, `cmd_info` reads exactly the keys
`width`, `height`, `fps`, `frame_count`, `duration_seconds` from the
`get_video_info` mapping: it completes with exit code 0 exactly when
all five keys are present, and a missing key means an uncaught
`KeyError` (no normal return). -/
theorem video_info_reads_five_keys
    (p : PPath) (t : TrackSummary) (info : VideoInfo)
    (hv : strUpper p.suffix ∈ videoSuffixes) :
    (cmd_info_run p t info = some 0 ↔
        ((lookupKey info ("width")).isSome = true
          ∧ (lookupKey info ("height")).isSome = true
          ∧ (lookupKey info ("fps")).isSome = true
          ∧ (lookupKey info ("frame_count")).isSome = true
          ∧ (lookupKey info ("duration_seconds")).isSome = true))
      ∧ (cmd_info_run p t info = some 0 ∨ cmd_info_run p t info = none) := by
  have hns : ¬ (strUpper p.suffix = ".SRT") := video_suffix_ne_srt _ hv
  rw [cmd_info_run, if_neg hns, if_pos hv]
  rcases h1 : lookupKey info ("width") with _ | v1 <;>
    rcases h2 : lookupKey info ("height") with _ | v2 <;>
      rcases h3 : lookupKey info ("fps") with _ | v3 <;>
        rcases h4 : lookupKey info ("frame_count") with _ | v4 <;>
          rcases h5 : lookupKey info ("duration_seconds") with _ | v5 <;>
            simp

/-- Witness for claim C7: on a `.mp4` path with a five-key probe
result, `cmd_info` returns 0. -/
theorem video_info_reads_five_keys_witness :
    cmd_info_run ⟨[], "clip", ".mp4"⟩ ⟨0, 0, 0, 0, 0, none, none⟩
        [("width", 1920), ("height", 1080), ("fps", 30),
         ("frame_count", 900), ("duration_seconds", 30)]
      = some 0 :=
  (video_info_reads_five_keys ⟨[], "clip", ".mp4"⟩ ⟨0, 0, 0, 0, 0, none, none⟩
      [("width", 1920), ("height", 1080), ("fps", 30),
       ("frame_count", 900), ("duration_seconds", 30)]
      (by decide)).1.mpr (by decide)

/-- Claim C10: on a path with suffix `.SRT` (uppercased), `cmd_info`
subscripts `start_coordinates` and `end_coordinates` with no
`None`-check, so it completes with exit code 0 exactly when the
parsed track has both a start and an end fix; with a missing fix the
subscript is undefined (uncaught exception, no normal return). -/
theorem srt_info_requires_gps_fix
    (p : PPath) (t : TrackSummary) (info : VideoInfo)
    (hs : strUpper p.suffix = ".SRT") :
    (cmd_info_run p t info = some 0 ↔
        t.start_coordinates.isSome = true ∧ t.end_coordinates.isSome = true)
      ∧ (t.start_coordinates = none ∨ t.end_coordinates = none →
          cmd_info_run p t info = none) := by
  rw [cmd_info_run, if_pos hs]
  rcases h1 : t.start_coordinates with _ | s1 <;>
    rcases h2 : t.end_coordinates with _ | e1 <;>
      simp [cmd_info_srt_shown, h1, h2]

/-- Witness for claim C10: a track with no valid fix makes `cmd_info`
crash on an `.srt` path, and one with both fixes returns 0. -/
theorem srt_info_requires_gps_fix_witness :
    cmd_info_run ⟨[], "flight", ".srt"⟩ ⟨4, 0, 0, 0, 0, none, none⟩ [] = none
      ∧ cmd_info_run ⟨[], "flight", ".srt"⟩
          ⟨4, 0, 0, 0, 0, some (1, 2), some (3, 4)⟩ [] = some 0 :=
  ⟨(srt_info_requires_gps_fix ⟨[], "flight", ".srt"⟩
      ⟨4, 0, 0, 0, 0, none, none⟩ [] (by decide)).2 (Or.inl rfl),
   (srt_info_requires_gps_fix ⟨[], "flight", ".srt"⟩
      ⟨4, 0, 0, 0, 0, some (1, 2), some (3, 4)⟩ [] (by decide)).1.mpr
      ⟨rfl, rfl⟩⟩

lemma progress_filled_eq (c t w : Nat) :
    ((w : Rat) * ((c : Rat) / (t : Rat))).floor.toNat = w * c / t := by
  rw [rat_floor_eq_int_floor]
  have h1 : (w : Rat) * ((c : Rat) / (t : Rat))
      = (((w * c : Nat) : Int) : Rat) / ((t : Nat) : Rat) := by
    push_cast
    ring
  rw [h1, Rat.floor_intCast_div_natCast, ← Int.natCast_div]
  rfl

/-- Claim C9: `progress_bar(current, total, width)` divides by
`total` with no guard, so `total = 0` is undefined (ZeroDivisionError,
modelled `none`); for `current ≤ total` with `1 ≤ total` the bar is
exactly `width` characters — a filled prefix of
`floor(width * current / total)` `'='` characters followed by `'-'` —
and the terminating newline is printed iff `current = total`. -/
theorem progress_bar_fill_and_newline (current total width : Nat) :
    progress_bar_run current 0 width = none
      ∧ (1 ≤ total → current ≤ total →
          progress_bar_run current total width = some
              { bar := List.replicate (width * current / total) '='
                    ++ List.replicate (width - width * current / total) '-'
                percentShown := (current : Rat) / (total : Rat) * 100
                currentShown := current
                totalShown := total
                newline := current == total }
            ∧ (List.replicate (width * current / total) '='
                ++ List.replicate (width - width * current / total) '-').length
                = width
            ∧ ((current == total) = true ↔ current = total)) := by
  constructor
  · rfl
  · intro h1 h2
    have ht : total ≠ 0 := by omega
    have htp : 0 < total := by omega
    have hle : width * current / total ≤ width := by
      calc width * current / total
          ≤ width * total / total :=
            Nat.div_le_div_right (Nat.mul_le_mul_left _ h2)
        _ = width := Nat.mul_div_cancel width htp
    refine ⟨?_, ?_, beq_iff_eq⟩
    · simp only [progress_bar_run, if_neg ht]
      rw [progress_filled_eq current total width]
    · simp only [List.length_append, List.length_replicate]
      omega

/-- Witness for claim C9: at 3 of 4 frames with width 50 the bar is
37 `'='` and 13 `'-'` characters, 50 in total, and no newline. -/
theorem progress_bar_fill_and_newline_witness :
    progress_bar_run 3 4 50 = some
        { bar := List.replicate (50 * 3 / 4) '='
              ++ List.replicate (50 - 50 * 3 / 4) '-'
          percentShown := ((3 : Nat) : Rat) / ((4 : Nat) : Rat) * 100
          currentShown := 3
          totalShown := 4
          newline := (3 == 4) }
      ∧ (List.replicate (50 * 3 / 4) '='
          ++ List.replicate (50 - 50 * 3 / 4) '-').length = 50
      ∧ ((3 == 4) = true ↔ 3 = 4) :=
  (progress_bar_fill_and_newline 3 4 50).2 (by decide) (by decide)

/-- Claim C1: in the composite mode the completed video is written to
the temp path (output stem + `_temp.mp4`) and reaches the final
output path only after processing finishes — by rename without
`--audio`, or by `add_audio` writing the output path and the temp
file being deleted with `--audio`; when `process_video` fails
mid-stream the output path is untouched (only the temp path holds the
partial artifact), so the output path never holds a partial artifact
that appears complete.  The hypothesis is the `pathlib` invariant
that a suffix is empty or starts with a dot. -/
theorem overlay_output_stays_absent_on_failure
    (video out : PPath) (fs0 : Fs) (useAud : Bool)
    (hp : out.suffix = "" ∨ out.suffix.data.head? = some '.') :
    (runFs fs0 (cmd_overlay_events video out useAud false) out.fullName
        = fs0 out.fullName)
      ∧ (runFs fs0 (cmd_overlay_events video out useAud false)
            (overlayTempPath out).fullName = some Artifact.truncatedVideo)
      ∧ (runFs fs0 (cmd_overlay_events video out false true) out.fullName
            = some Artifact.overlayVideo
          ∧ runFs fs0 (cmd_overlay_events video out false true)
              (overlayTempPath out).fullName = none)
      ∧ (runFs fs0 (cmd_overlay_events video out true true) out.fullName
            = some Artifact.muxedVideo
          ∧ runFs fs0 (cmd_overlay_events video out true true)
              (overlayTempPath out).fullName = none) := by
  have hne := overlayTempPath_fullName_ne out hp
  have hne2 : out.fullName ≠ (overlayTempPath out).fullName := fun e => hne e.symm
  refine ⟨?_, ?_, ⟨?_, ?_⟩, ⟨?_, ?_⟩⟩ <;>
    simp [cmd_overlay_events, runFs, stepFs, Fs.update, hne, hne2]

/-- Witness for claim C1: on an empty filesystem, a failed run leaves
nothing at `d/o.mp4` and a partial video at `d/o_temp.mp4`; the two
successful modes leave the completed artifact at `d/o.mp4` and delete
the temp file. -/
theorem overlay_output_stays_absent_on_failure_witness :
    runFs (fun _ => none)
        (cmd_overlay_events ⟨["d"], "v", ".MP4"⟩ ⟨["d"], "o", ".mp4"⟩ true false)
        (PPath.fullName ⟨["d"], "o", ".mp4"⟩) = none
      ∧ runFs (fun _ => none)
          (cmd_overlay_events ⟨["d"], "v", ".MP4"⟩ ⟨["d"], "o", ".mp4"⟩ true false)
          (PPath.fullName (overlayTempPath ⟨["d"], "o", ".mp4"⟩))
          = some Artifact.truncatedVideo
      ∧ (runFs (fun _ => none)
            (cmd_overlay_events ⟨["d"], "v", ".MP4"⟩ ⟨["d"], "o", ".mp4"⟩ false true)
            (PPath.fullName ⟨["d"], "o", ".mp4"⟩) = some Artifact.overlayVideo
          ∧ runFs (fun _ => none)
              (cmd_overlay_events ⟨["d"], "v", ".MP4"⟩ ⟨["d"], "o", ".mp4"⟩ false true)
              (PPath.fullName (overlayTempPath ⟨["d"], "o", ".mp4"⟩)) = none)
      ∧ (runFs (fun _ => none)
            (cmd_overlay_events ⟨["d"], "v", ".MP4"⟩ ⟨["d"], "o", ".mp4"⟩ true true)
            (PPath.fullName ⟨["d"], "o", ".mp4"⟩) = some Artifact.muxedVideo
          ∧ runFs (fun _ => none)
              (cmd_overlay_events ⟨["d"], "v", ".MP4"⟩ ⟨["d"], "o", ".mp4"⟩ true true)
              (PPath.fullName (overlayTempPath ⟨["d"], "o", ".mp4"⟩)) = none) :=
  overlay_output_stays_absent_on_failure ⟨["d"], "v", ".MP4"⟩ ⟨["d"], "o", ".mp4"⟩
    (fun _ => none) true (Or.inr (by decide))

lemma sample_bracket (frames : List TelemetryFrame) (t : Rat)
    (hs : frames.Pairwise (fun x y => x.start_time_s ≤ y.start_time_s))
    (i : Nat) (hi : i + 1 < frames.length)
    (h1 : (frames.get ⟨i, Nat.lt_of_succ_lt hi⟩).start_time_s < t)
    (h2 : t < (frames.get ⟨i + 1, hi⟩).start_time_s) :
    sample frames t
      = some (sampleBetween (frames.get ⟨i, Nat.lt_of_succ_lt hi⟩)
          (frames.get ⟨i + 1, hi⟩) t) := by
  induction frames generalizing i with
  | nil => simp at hi
  | cons f rest ih =>
    cases rest with
    | nil => simp at hi
    | cons g rest2 =>
      rcases List.pairwise_cons.mp hs with ⟨hf, hs2⟩
      cases i with
      | zero =>
        have e1 : (f :: g :: rest2).get ⟨0, Nat.lt_of_succ_lt hi⟩ = f := rfl
        have e2 : (f :: g :: rest2).get ⟨0 + 1, hi⟩ = g := rfl
        rw [e1] at h1
        rw [e2] at h2
        have hnle : ¬ (t ≤ f.start_time_s) := not_le.mpr h1
        simp only [sample]
        rw [e1, e2, if_neg hnle, if_pos h2]
      | succ j =>
        have hi2 : j + 1 < (g :: rest2).length :=
          Nat.lt_of_succ_lt_succ hi
        have e1 : (f :: g :: rest2).get ⟨j + 1, Nat.lt_of_succ_lt hi⟩
            = (g :: rest2).get ⟨j, Nat.lt_of_succ_lt hi2⟩ := rfl
        have e2 : (f :: g :: rest2).get ⟨j + 1 + 1, hi⟩
            = (g :: rest2).get ⟨j + 1, hi2⟩ := rfl
        rw [e1] at h1
        rw [e2] at h2
        have hmem : (g :: rest2).get ⟨j, Nat.lt_of_succ_lt hi2⟩ ∈ g :: rest2 :=
          List.get_mem _ _ _
        have hfle : f.start_time_s
            ≤ ((g :: rest2).get ⟨j, Nat.lt_of_succ_lt hi2⟩).start_time_s :=
          hf _ hmem
        have hgle : g.start_time_s
            ≤ ((g :: rest2).get ⟨j, Nat.lt_of_succ_lt hi2⟩).start_time_s := by
          cases j with
          | zero => exact le_refl _
          | succ jj =>
            exact List.pairwise_iff_get.mp hs2 ⟨0, by omega⟩
              ⟨jj + 1, Nat.lt_of_succ_lt hi2⟩ (by simp [Fin.lt_def])
        have hnle : ¬ (t ≤ f.start_time_s) :=
          not_le.mpr (lt_of_le_of_lt hfle h1)
        have hng : ¬ (t < g.start_time_s) :=
          not_lt.mpr (le_trans hgle (le_of_lt h1))
        simp only [sample]
        rw [e1, e2, if_neg hnle, if_neg hng]
        exact ih hs2 j hi2 h1 h2

/-- Claim C6: for the 3-frame track with altitudes [10, 20, 30] m at
start times [0s, 1s, 2s] and final end time 3s, `sample(1.5)` has
altitude 25; and in general, for every `t` strictly between the start
times of two adjacent frames carrying altitudes `a` and `b`, the
sampled altitude is the exact linear interpolation
`a + (b - a) * (t - s_i) / (s_(i+1) - s_i)`. -/
theorem sample_linear_interpolation_altitude :
    sampleAltitude exampleTrack (3 / 2) = some 25
      ∧ (∀ (frames : List TelemetryFrame) (t : Rat) (i : Nat)
           (hi : i + 1 < frames.length) (a b : Rat),
           frames.Pairwise (fun x y => x.start_time_s ≤ y.start_time_s) →
           (frames.get ⟨i, Nat.lt_of_succ_lt hi⟩).start_time_s < t →
           t < (frames.get ⟨i + 1, hi⟩).start_time_s →
           (frames.get ⟨i, Nat.lt_of_succ_lt hi⟩).altitude_m = some a →
           (frames.get ⟨i + 1, hi⟩).altitude_m = some b →
           sampleAltitude frames t
             = some (a + (b - a) *
                 ((t - (frames.get ⟨i, Nat.lt_of_succ_lt hi⟩).start_time_s)
                   / ((frames.get ⟨i + 1, hi⟩).start_time_s
                      - (frames.get ⟨i, Nat.lt_of_succ_lt hi⟩).start_time_s)))) := by
  constructor
  · norm_num [sampleAltitude, sample, exampleTrack, altFrame, sampleBetween,
      lerpOpt]
  · intro frames t i hi a b hs h1 h2 ha hb
    rw [sampleAltitude, sample_bracket frames t hs i hi h1 h2]
    simp only [List.get_eq_getElem] at ha hb
    simp [sampleBetween, lerpOpt, ha, hb]

/-- Witness for claim C6: between the first two frames of the example
track, at t = 0.5 s, the sampled altitude is the interpolation
10 + (20 - 10) * ((0.5 - 0) / (1 - 0)) = 15. -/
theorem sample_linear_interpolation_altitude_witness :
    sampleAltitude exampleTrack (1 / 2)
      = some (10 + (20 - 10) * (((1 : Rat) / 2 - 0) / (1 - 0))) :=
  sample_linear_interpolation_altitude.2 exampleTrack (1 / 2) 0
    (by decide) 10 20
    (by norm_num [exampleTrack, altFrame, List.pairwise_cons])
    (show (0 : Rat) < 1 / 2 by norm_num)
    (show (1 : Rat) / 2 < 1 by norm_num)
    rfl rfl

end DjiTelemetry
